import Mathlib

/- Verification of the humcp tool registration, filtering and REST route
generation pipeline. The definitions below are shallow embeddings of the
Python sources under src/: src/humcp/config.py, src/humcp/decorator.py,
src/humcp/registry.py, src/humcp/routes.py, src/humcp/server.py and
src/tools/init (the package file defining the registry-appending decorator). -/

/- ---------------------------------------------------------------------
Glob matching, modelling the Python standard library fnmatch used by
config.py. Semantics: a star matches any run of characters, a question
mark one character, a bracket expression a character class (with ranges
and negation by an exclamation mark; a bracket with no closing bracket is
a literal). Case normalisation is the identity on POSIX.
--------------------------------------------------------------------- -/

/-- Parse the body of a bracket expression (after the opening bracket, the
optional negation mark and an optional leading literal closing bracket).
Returns the class items as closed character ranges (a single character c is
the range (c, c)) together with the rest of the pattern after the closing
bracket; none when no closing bracket exists. -/
def parseClassBody : List Char → Option (List (Char × Char) × List Char)
  | [] => none
  | ']' :: rest => some ([], rest)
  | a :: '-' :: b :: rest =>
    if b = ']' then some ([(a, a), ('-', '-')], rest)
    else (parseClassBody rest).map (fun pr => ((a, b) :: pr.1, pr.2))
  | a :: rest => (parseClassBody rest).map (fun pr => ((a, a) :: pr.1, pr.2))

/-- Parse a full bracket expression given the pattern following the opening
bracket: an optional negation mark, then an optional leading literal closing
bracket, then the class body. -/
def globBracket (p : List Char) : Option (Bool × List (Char × Char) × List Char) :=
  let step := fun (neg : Bool) (p1 : List Char) =>
    match p1 with
    | ']' :: r => (parseClassBody r).map (fun pr => (neg, (']', ']') :: pr.1, pr.2))
    | _ => (parseClassBody p1).map (fun pr => (neg, pr.1, pr.2))
  match p with
  | '!' :: r => step true r
  | _ => step false p

/-- Whether a character is in a parsed character class. -/
def inClass (items : List (Char × Char)) (c : Char) : Bool :=
  items.any (fun r => decide (r.1 ≤ c) && decide (c ≤ r.2))

/-- Fuel-indexed glob matcher (pattern, then string). Every recursive call
strictly decreases the combined length of pattern and string, so fuel equal
to that combined length plus one always suffices; fnmatch below supplies it. -/
def globMatchFuel : Nat → List Char → List Char → Bool
  | 0, _, _ => false
  | _ + 1, [], [] => true
  | _ + 1, [], _ :: _ => false
  | fuel + 1, '*' :: ps, [] => globMatchFuel fuel ps []
  | fuel + 1, '*' :: ps, c :: s =>
    globMatchFuel fuel ps (c :: s) || globMatchFuel fuel ('*' :: ps) s
  | _ + 1, '?' :: _, [] => false
  | fuel + 1, '?' :: ps, _ :: s => globMatchFuel fuel ps s
  | fuel + 1, '[' :: ps, s =>
    match globBracket ps with
    | some (neg, items, rest) =>
      match s with
      | [] => false
      | c :: s1 => (inClass items c != neg) && globMatchFuel fuel rest s1
    | none =>
      match s with
      | '[' :: s1 => globMatchFuel fuel ps s1
      | _ => false
  | fuel + 1, p :: ps, c :: s => p == c && globMatchFuel fuel ps s
  | _ + 1, _ :: _, [] => false

/-- fnmatch.fnmatch(name, pattern) on POSIX. -/
def fnmatch (nm pat : String) : Bool :=
  globMatchFuel (pat.toList.length + nm.toList.length + 1) pat.toList nm.toList

/- ---------------------------------------------------------------------
Config model: src/humcp/config.py.
--------------------------------------------------------------------- -/

/-- config.py FilterConfig: a list of exact category names and a list of
exact-or-glob tool name patterns. -/
structure FilterConfig where
  categories : List String
  tools : List String
deriving DecidableEq, Repr

/-- FilterConfig.is_empty: both lists empty (Python truthiness of lists). -/
def FilterConfig.is_empty (f : FilterConfig) : Bool :=
  f.categories.isEmpty && f.tools.isEmpty

/-- config.py ToolsConfig. The Python field names include and exclude are
reserved words in Lean, hence incl and excl. -/
structure ToolsConfig where
  incl : FilterConfig
  excl : FilterConfig
deriving DecidableEq, Repr

/-- config.py ConfigValidationResult. -/
structure ConfigValidationResult where
  valid : Bool
  warnings : List String
  errors : List String
deriving DecidableEq, Repr

/-- Minimal model of the fastmcp FunctionTool object: the only field the
config filter reads is its name. -/
structure FunctionTool where
  name : String
deriving DecidableEq, Repr

/-- decorator.py RegisteredTool: a FunctionTool plus a category. -/
structure RegisteredTool where
  tool : FunctionTool
  category : String
deriving DecidableEq, Repr

/-- config.py _is_wildcard. -/
def isWildcard (p : String) : Bool :=
  p.contains '*' || p.contains '?' || p.contains '['

/-- config.py _matches_filter: category membership OR any tool pattern match
(glob when the pattern has a wildcard, exact string equality otherwise). -/
def matchesFilter (reg : RegisteredTool) (f : FilterConfig) : Bool :=
  f.categories.contains reg.category ||
    f.tools.any (fun p =>
      if isWildcard p then fnmatch reg.tool.name p else reg.tool.name == p)

/-- The category loop of config.py validate_config for one section: an error
for every exact category name missing from the available categories. The
Python message also quotes the name and appends the sorted available list;
the quoting and that suffix are elided here, the section and offending name
are kept. -/
def sectionCatErrors (sectionName : String) (f : FilterConfig)
    (availableCategories : List String) : List String :=
  f.categories.filterMap (fun c =>
    if availableCategories.contains c then none
    else some (sectionName ++ ".categories: Unknown category " ++ c))

/-- The tool loop of config.py validate_config, warning part: a warning for
every wildcard pattern matching no available tool (quoting elided). -/
def sectionToolWarnings (sectionName : String) (f : FilterConfig)
    (availableTools : List String) : List String :=
  f.tools.filterMap (fun p =>
    if isWildcard p then
      if availableTools.any (fun t => fnmatch t p) then none
      else some (sectionName ++ ".tools: Pattern " ++ p ++ " matches no tools")
    else none)

/-- The tool loop of config.py validate_config, error part: an error for
every non-wildcard tool name missing from the available tools. -/
def sectionToolErrors (sectionName : String) (f : FilterConfig)
    (availableTools : List String) : List String :=
  f.tools.filterMap (fun p =>
    if isWildcard p then none
    else if availableTools.contains p then none
    else some (sectionName ++ ".tools: Unknown tool " ++ p))

/-- config.py validate_config: the category loop runs over include then
exclude, then the tool loop over include then exclude; all errors are
collected, valid iff there is none. -/
def validateConfig (config : ToolsConfig)
    (availableCategories availableTools : List String) : ConfigValidationResult :=
  let errs :=
    sectionCatErrors "include" config.incl availableCategories ++
    sectionCatErrors "exclude" config.excl availableCategories ++
    sectionToolErrors "include" config.incl availableTools ++
    sectionToolErrors "exclude" config.excl availableTools
  { valid := errs.isEmpty
    warnings :=
      sectionToolWarnings "include" config.incl availableTools ++
      sectionToolWarnings "exclude" config.excl availableTools
    errors := errs }

/-- Steps 1 and 2 of config.py filter_tools (lines 201 to 224): keep
everything when include is empty, otherwise the tools matching the include
filter; then, when exclude is non-empty, drop the tools matching it. -/
def filterSteps (config : ToolsConfig) (tools : List RegisteredTool) :
    List RegisteredTool :=
  let filtered :=
    if config.incl.is_empty then tools
    else tools.filter (fun r => matchesFilter r config.incl)
  if config.excl.is_empty then filtered
  else filtered.filter (fun r => !matchesFilter r config.excl)

/-- config.py filter_tools: empty input short-circuits to the empty list;
otherwise, when validate is set, validation runs on the categories and names
of the given tools and a validation error raises (ValueError, modelled as
Except.error; the newline layout of the Python message is simplified)
before any filtering. -/
def filterTools (config : ToolsConfig) (tools : List RegisteredTool)
    (validate : Bool) : Except String (List RegisteredTool) :=
  if tools.isEmpty then .ok []
  else if validate then
    let result := validateConfig config (tools.map (fun r => r.category))
      (tools.map (fun r => r.tool.name))
    if result.valid then .ok (filterSteps config tools)
    else .error ("Config validation failed: " ++ String.intercalate "; " result.errors)
  else .ok (filterSteps config tools)

/- ---------------------------------------------------------------------
Registry and routes model: src/humcp/registry.py and src/humcp/routes.py.
--------------------------------------------------------------------- -/

/-- A JSON-serialisable Python value, as exchanged with tool callables. -/
inductive JsonValue where
  | null
  | bool (b : Bool)
  | num (n : Int)
  | str (s : String)
  | arr (elems : List JsonValue)
  | obj (fields : List (String × JsonValue))
deriving Repr

/-- Python base types appearing in parameter annotations, as keyed by the
type_map of routes.py _get_schema_from_func; custom covers any other type. -/
inductive PyType where
  | pyStr | pyInt | pyFloat | pyBool | pyList | pyDict | pyNone
  | custom (nm : String)
deriving DecidableEq, Repr

/-- A parameter annotation object: a plain type, or a union type carrying
its member list (the Python attribute holding the members of a union). -/
inductive PyAnn where
  | simple (t : PyType)
  | union (args : List PyType)
deriving DecidableEq, Repr

/-- One declared parameter of a callable, as inspect.signature reports it:
its name, its optional annotation (none models the empty annotation) and
its optional default value (none models the empty default, some
JsonValue.null a declared default of Python None). The Python attribute
names are name, annotation and default; the middle one is shortened. -/
structure Param where
  name : String
  ann : Option PyAnn
  dflt : Option JsonValue
deriving Repr

/-- Outcome of invoking a tool callable with keyword arguments: a returned
value, a raised HTTPException carrying a status code and detail, or any
other raised exception carrying its text. -/
inductive CallResult where
  | ok (v : JsonValue)
  | httpExn (code : Nat) (detail : String)
  | exn (msg : String)
deriving Repr

/-- Model of a tool callable as the route layer observes it: docstring,
declared parameter list, and invocation behaviour on keyword arguments. -/
structure PyFunc where
  doc : Option String
  params : List Param
  call : List (String × JsonValue) → CallResult

/-- registry.py ToolRegistration: name, category and the callable. -/
structure ToolRegistration where
  name : String
  category : String
  func : PyFunc

/-- routes.py type_map: the dictionary from base types to JSON type names
(absent keys make dictionary lookup return none). -/
def typeMap : PyType → Option String
  | .pyStr => some "string"
  | .pyInt => some "integer"
  | .pyFloat => some "number"
  | .pyBool => some "boolean"
  | .pyList => some "array"
  | .pyDict => some "object"
  | _ => none

/-- The union-handling step of _get_schema_from_func: when the annotation
carries a non-empty member list, replace it by its first non-None member
(falling back to the annotation itself when every member is None). -/
def resolveAnn (a : PyAnn) : PyAnn :=
  match a with
  | .union args =>
    if args.isEmpty then .union args
    else
      match args.find? (fun t => !(t == PyType.pyNone)) with
      | some t => .simple t
      | none => .union args
  | other => other

/-- The JSON type _get_schema_from_func assigns to an annotation:
type_map lookup on the resolved annotation, defaulting to string (a union
object is never a type_map key, so it also defaults to string). -/
def jsonTypeOf (a : PyAnn) : String :=
  match resolveAnn a with
  | .simple t => (typeMap t).getD "string"
  | .union _ => "string"

/-- The participation test of _get_schema_from_func: a parameter with no
annotation is skipped, and so is one annotated exactly as the None type. -/
def includedAnn (p : Param) : Option PyAnn :=
  match p.ann with
  | none => none
  | some a => if a == PyAnn.simple PyType.pyNone then none else some a

/-- The schema object produced by _get_schema_from_func. Each property is
recorded as its name paired with its JSON type string. -/
structure FuncSchema where
  type : String
  properties : List (String × String)
  required : List String
deriving DecidableEq, Repr

/-- routes.py _get_schema_from_func: one property per annotated, non-skipped
parameter, in declaration order; required collects, in order, the included
parameters with no default value. -/
def getSchemaFromFunc (params : List Param) : FuncSchema :=
  { type := "object"
    properties := params.filterMap (fun p =>
      (includedAnn p).map (fun a => (p.name, jsonTypeOf a)))
    required := (params.filter (fun p =>
      (includedAnn p).isSome && p.dflt.isNone)).map (fun p => p.name) }

/-- A request body as an instance of the generated input model: each field
holds either a JSON value or the absent-optional default None (none). -/
def modelDumpExcludeNone (data : List (String × Option JsonValue)) :
    List (String × JsonValue) :=
  data.filterMap (fun kv => kv.2.map (fun v => (kv.1, v)))

/-- The request handler of routes.py _add_tool_route: dump the body
excluding the fields left at None, invoke the callable with the remaining
keyword arguments, wrap the returned value as a result object; re-raise an
HTTPException, convert any other exception to a 500 whose detail is the
fixed prefix followed by the exception text. -/
def endpointExec (reg : ToolRegistration)
    (data : List (String × Option JsonValue)) : Except (Nat × String) JsonValue :=
  match reg.func.call (modelDumpExcludeNone data) with
  | .ok v => .ok (.obj [("result", v)])
  | .httpExn code detail => .error (code, detail)
  | .exn msg => .error (500, "Tool failed: " ++ msg)

/-- The per-tool summary emitted by _build_categories. -/
structure ToolSummary where
  name : String
  description : Option String
  endpoint : String
deriving DecidableEq, Repr

/-- The summary dictionary _build_categories appends for one registration. -/
def summaryOf (reg : ToolRegistration) : ToolSummary :=
  { name := reg.name
    description := reg.func.doc
    endpoint := "/tools/" ++ reg.name }

/-- Append a value to the list of its key in an insertion-ordered
association list, creating the key at the end when absent (the setdefault
plus append idiom of _build_categories). -/
def addToCategory : List (String × List ToolSummary) → String → ToolSummary →
    List (String × List ToolSummary)
  | [], k, v => [(k, [v])]
  | (k0, vs) :: rest, k, v =>
    if k0 = k then (k0, vs ++ [v]) :: rest
    else (k0, vs) :: addToCategory rest k v

/-- routes.py _build_categories over the registry contents, insertion
ordered. -/
def buildCategories (registry : List ToolRegistration) :
    List (String × List ToolSummary) :=
  registry.foldl (fun cats reg => addToCategory cats reg.category (summaryOf reg)) []

/-- Code-point lexicographic order on character lists, the order Python uses
to compare strings. -/
def charListLt : List Char → List Char → Bool
  | [], [] => false
  | [], _ :: _ => true
  | _ :: _, [] => false
  | a :: as, b :: bs =>
    if a.toNat < b.toNat then true
    else if b.toNat < a.toNat then false
    else charListLt as bs

/-- Python string comparison (code-point lexicographic). -/
def strLt (a b : String) : Bool := charListLt a.toList b.toList

/-- Insertion into a key-sorted association list (keys are unique, coming
from a dictionary). -/
def insertSortedByKey (x : String × Nat × List ToolSummary) :
    List (String × Nat × List ToolSummary) → List (String × Nat × List ToolSummary)
  | [] => [x]
  | y :: ys => if strLt x.1 y.1 then x :: y :: ys else y :: insertSortedByKey x ys

/-- Sort an association list by key, as Python sorted on dictionary items. -/
def sortByKey (l : List (String × Nat × List ToolSummary)) :
    List (String × Nat × List ToolSummary) :=
  l.foldr insertSortedByKey []

/-- The list_tools handler of routes.py register_routes: the total count of
the registry snapshot it reads, and per category (emitted sorted by name)
the tool count and summaries. -/
def listTools (registry : List ToolRegistration) :
    Nat × List (String × Nat × List ToolSummary) :=
  (registry.length,
    sortByKey ((buildCategories registry).map (fun kv => (kv.1, kv.2.length, kv.2))))

/-- routes.py _build_tool_lookup: a dictionary keyed by (category, name);
in a dictionary comprehension a later registration with the same key
overwrites an earlier one, so lookup yields the last match. -/
def lookupTool (registry : List ToolRegistration) (category nm : String) :
    Option ToolRegistration :=
  (registry.filter (fun r => r.category == category && r.name == nm)).getLast?

/-- The response body of the get_tool handler. -/
structure ToolInfo where
  name : String
  category : String
  description : Option String
  endpoint : String
  inputSchema : FuncSchema

/-- The success payload of get_tool for a resolved registration: its name,
category, docstring, endpoint path and derived input schema. -/
def toolInfoOf (reg : ToolRegistration) : ToolInfo :=
  { name := reg.name
    category := reg.category
    description := reg.func.doc
    endpoint := "/tools/" ++ reg.name
    inputSchema := getSchemaFromFunc reg.func.params }

/-- routes.py get_tool: exact lookup of (category, tool name), then a retry
with the category prefixed to the tool name, then 404 (message quoting
elided). -/
def getTool (registry : List ToolRegistration) (category toolName : String) :
    Except (Nat × String) ToolInfo :=
  let resolved :=
    match lookupTool registry category toolName with
    | some r => some r
    | none => lookupTool registry category (category ++ "_" ++ toolName)
  match resolved with
  | some reg => .ok (toolInfoOf reg)
  | none => .error (404, "Tool " ++ toolName ++ " not found in category " ++ category)

/- ---------------------------------------------------------------------
Discovery and name resolution: src/humcp/server.py, src/humcp/decorator.py
and the decorator of the src/tools package file.
--------------------------------------------------------------------- -/

/-- Worker of server.py _discover_and_register over the ordered list of
discovered decorated functions, each given by its resolved tool name and
category, threading the seen_names set: a name already seen is skipped
(with only a log warning in the source) and the first registration under a
name is kept. -/
def discoverGo : List (String × String) → List String → List (String × String)
  | [], _ => []
  | f :: rest, seen =>
    if seen.contains f.1 then discoverGo rest seen
    else f :: discoverGo rest (f.1 :: seen)

/-- server.py _discover_and_register: registration never fails; duplicates
are silently dropped. -/
def discoverAndRegister (funcs : List (String × String)) : List (String × String) :=
  discoverGo funcs []

/-- decorator.py line 69: the resolved tool name is the tool_name argument
whenever it is not None (an empty string included), else the function name.
The category argument plays no part in name resolution. -/
def resolveNameDecorator (toolName : Option String) (funcName : String) : String :=
  match toolName with
  | some n => n
  | none => funcName

/-- Line 30 of the src/tools package file: name or the function name, where
an empty string is falsy and falls through. The category argument plays no
part in name resolution. -/
def resolveNameToolsInit (nm : Option String) (funcName : String) : String :=
  match nm with
  | some n => if n.isEmpty then funcName else n
  | none => funcName

/- ---------------------------------------------------------------------
Sample tools used by witnesses and concrete evaluations.
--------------------------------------------------------------------- -/

/-- Keyword-argument lookup used by the sample callables below. -/
def lookupArg (args : List (String × JsonValue)) (k : String) : Option JsonValue :=
  (args.find? (fun kv => kv.1 == k)).map (fun kv => kv.2)

/-- Sample tool callable returning the sum of its two integer arguments. -/
def addFunc : PyFunc :=
  { doc := some "Add two numbers."
    params := [⟨"a", some (.simple .pyInt), none⟩, ⟨"b", some (.simple .pyInt), none⟩]
    call := fun args =>
      match lookupArg args "a", lookupArg args "b" with
      | some (.num a), some (.num b) => .ok (.num (a + b))
      | _, _ => .exn "missing argument" }

/-- Sample registration for the callable above. -/
def calcAddReg : ToolRegistration :=
  { name := "calc_add", category := "local", func := addFunc }

/-- Sample tool callable standing in for a shell runner. -/
def shellFunc : PyFunc :=
  { doc := some "Run a shell command."
    params := [⟨"cmd", some (.simple .pyStr), none⟩]
    call := fun _ => .ok .null }

/-- Sample registration for the shell callable. -/
def shellReg : ToolRegistration :=
  { name := "shell_run", category := "shell", func := shellFunc }

/-- The same two sample tools as the config filter sees them. -/
def calcRT : RegisteredTool := ⟨⟨"calc_add"⟩, "local"⟩

/-- The shell sample tool as the config filter sees it. -/
def shellRT : RegisteredTool := ⟨⟨"shell_run"⟩, "shell"⟩

/-- A config whose exclude section drops the shell category. -/
def c5Config : ToolsConfig := ⟨⟨[], []⟩, ⟨["shell"], []⟩⟩

/-- A config naming a category that never exists anywhere. -/
def ghostConfig : ToolsConfig := ⟨⟨["ghost"], []⟩, ⟨[], []⟩⟩

/-- A callable whose raised exception text carries internal detail. -/
def leakFunc : PyFunc :=
  { doc := none
    params := []
    call := fun _ => .exn "KeyError: missing table in prod database" }

/-- Registration of the leaking callable. -/
def leakReg : ToolRegistration :=
  { name := "leaky_tool", category := "test", func := leakFunc }

/-- The one pattern test of _matches_filter, split by wildcardness. -/
theorem patternCase_iff (nm p : String) :
    ((if isWildcard p then fnmatch nm p else nm == p) = true) ↔
      ((isWildcard p = true ∧ fnmatch nm p = true)
        ∨ (isWildcard p = false ∧ nm = p)) := by
  by_cases h : isWildcard p = true
  · simp [h]
  · rw [Bool.not_eq_true] at h
    simp [h]

/- ---------------------------------------------------------------------
Claim theorems.
--------------------------------------------------------------------- -/

/-- C1: the claim says a duplicate registration raises a hard duplicate-tool
error and the registry keeps exactly the first entry. The code of
server.py _discover_and_register instead skips a duplicate with only a log
warning and cannot fail: evaluated at two discovered functions sharing the
name duplicate_tool, it returns normally with the first registration kept
and no error raised. -/
theorem c1_duplicate_is_skipped_not_error :
    discoverAndRegister [("duplicate_tool", "test"), ("duplicate_tool", "test2")]
        = [("duplicate_tool", "test")]
      ∧ (discoverAndRegister
          [("duplicate_tool", "test"), ("duplicate_tool", "test2")]).length = 1 := by
  exact ⟨rfl, rfl⟩

/-- C2: the claim says a registration with only a category resolves the name
to category underscore function name, and an explicit empty-string name
falls through to auto-generation. Neither cited decorator does this:
decorator.py resolves a missing name to the bare function name (whatever the
category) and keeps an explicit empty string as the name; the src/tools
package decorator also ignores the category, only treating the empty string
as absent. -/
theorem c2_name_resolution_ignores_category :
    resolveNameDecorator none "my_func" = "my_func"
      ∧ resolveNameDecorator (some "") "empty_name_func" = ""
      ∧ resolveNameToolsInit none "my_func" = "my_func"
      ∧ resolveNameToolsInit (some "") "empty_name_func" = "empty_name_func" := by
  exact ⟨rfl, rfl, rfl, rfl⟩

/-- C5: the claim says the tool listing reflects the filtered tool list
passed to route registration. The register_routes of routes.py accepts no
tool list and builds the listing from the raw module-level registry: with
the registry holding the calc and shell sample tools and a config excluding
the shell category, the filtered list keeps only the calc tool, yet the
listing reports two tools and still enumerates the shell category (the
sorted order and per-category counts, by themselves, do hold). -/
theorem c5_listing_reads_raw_registry :
    filterSteps c5Config [calcRT, shellRT] = [calcRT]
      ∧ (listTools [calcAddReg, shellReg]).1 = 2
      ∧ (listTools [calcAddReg, shellReg]).2.map (fun kv => kv.1) = ["local", "shell"]
      ∧ (listTools [calcAddReg, shellReg]).2.map (fun kv => kv.2.1) = [1, 1] := by
  refine ⟨by decide, rfl, ?_, ?_⟩ <;> decide

/-- C6: the execute endpoint dumps the body dropping exactly the fields left
at the absent-optional default, invokes the callable with the remaining
fields as keyword arguments and wraps a successful return value as a result
object; concretely, posting a equals 2 and b equals 3 to the sample adding
tool yields result 5. -/
theorem c6_execute_endpoint (reg : ToolRegistration)
    (data : List (String × Option JsonValue)) :
    (∀ k v, (k, v) ∈ modelDumpExcludeNone data ↔ (k, some v) ∈ data)
      ∧ (∀ v, reg.func.call (modelDumpExcludeNone data) = CallResult.ok v →
          endpointExec reg data = Except.ok (JsonValue.obj [("result", v)]))
      ∧ endpointExec calcAddReg [("a", some (JsonValue.num 2)), ("b", some (JsonValue.num 3))]
          = Except.ok (JsonValue.obj [("result", JsonValue.num 5)]) := by
  refine ⟨?_, ?_, rfl⟩
  · intro k v
    simp only [modelDumpExcludeNone, List.mem_filterMap, Option.map_eq_some']
    constructor
    · rintro ⟨⟨a, b⟩, hmem, w, hb, heq⟩
      cases heq
      exact hb ▸ hmem
    · intro h
      exact ⟨(k, some v), h, v, rfl, rfl⟩
  · intro v hcall
    simp [endpointExec, hcall]

/-- Witness for C6 at a concrete registration and body with one field left
at the absent default. -/
theorem c6_execute_endpoint_witness :
    endpointExec calcAddReg
        [("a", some (JsonValue.num 4)), ("b", some (JsonValue.num 7)), ("note", none)]
      = Except.ok (JsonValue.obj [("result", JsonValue.num 11)]) :=
  (c6_execute_endpoint calcAddReg
      [("a", some (JsonValue.num 4)), ("b", some (JsonValue.num 7)), ("note", none)]).2.1
    (JsonValue.num 11) rfl


/-- C7 counterexample: the claim says the 500 message does not leak the
internal exception text beyond a short summary, so callers learn only that
the tool failed. Evaluated at a callable raising an exception whose text
carries internal detail, the endpoint of routes.py returns that text
verbatim after the fixed prefix (the splitOn conjunct exhibits the
occurrence of the internal text inside the returned detail). -/
theorem c7_counterexample_detail_leaks :
    endpointExec leakReg []
        = Except.error (500, "Tool failed: " ++ "KeyError: missing table in prod database")
      ∧ ("Tool failed: " ++ "KeyError: missing table in prod database" : String)
          ≠ "Tool failed: " := by
  exact ⟨rfl, by decide⟩

/-- C7 amended: every exception raised by the callable other than an
HTTPException is converted to a 500 whose detail is the fixed prefix
followed by the exception text (so the internal text is included, contrary
to the original claim); an HTTPException is re-raised unchanged; the
handler always yields a response, never an unhandled crash. -/
theorem c7_exception_conversion (reg : ToolRegistration)
    (data : List (String × Option JsonValue)) :
    (∀ msg, reg.func.call (modelDumpExcludeNone data) = CallResult.exn msg →
        endpointExec reg data = Except.error (500, "Tool failed: " ++ msg))
      ∧ (∀ code detail, reg.func.call (modelDumpExcludeNone data) = CallResult.httpExn code detail →
          endpointExec reg data = Except.error (code, detail))
      ∧ (∀ msg code detail,
          reg.func.call (modelDumpExcludeNone data) = CallResult.exn msg →
          endpointExec reg data = Except.error (code, detail) → code = 500) := by
  refine ⟨?_, ?_, ?_⟩
  · intro msg hcall
    simp [endpointExec, hcall]
  · intro code detail hcall
    simp [endpointExec, hcall]
  · intro msg code detail hcall hres
    simp [endpointExec, hcall] at hres
    exact hres.1.symm

/-- Witness for C7 at the leaking callable. -/
theorem c7_exception_conversion_witness :
    endpointExec leakReg []
      = Except.error (500, "Tool failed: " ++ "KeyError: missing table in prod database") :=
  (c7_exception_conversion leakReg []).1 "KeyError: missing table in prod database" rfl

/-- C3: filter_tools (validation off) applies exactly the two fixed steps: a
tool is kept iff it is in the input, passes the include step (empty include
keeps everything, otherwise category membership OR a tool pattern match,
a union) and is not dropped by the exclude step (non-empty exclude drops
category membership OR pattern match); the pattern test is glob for
wildcard patterns and string equality otherwise; and an empty include and
exclude make filtering the identity. -/
theorem c3_filter_two_steps (config : ToolsConfig) (tools : List RegisteredTool) :
    filterTools config tools false = Except.ok (filterSteps config tools)
      ∧ (∀ r : RegisteredTool, r ∈ filterSteps config tools ↔
          (r ∈ tools
            ∧ (config.incl.is_empty = true ∨ matchesFilter r config.incl = true)
            ∧ (config.excl.is_empty = true ∨ matchesFilter r config.excl = false)))
      ∧ (∀ (r : RegisteredTool) (f : FilterConfig), matchesFilter r f = true ↔
          (r.category ∈ f.categories
            ∨ ∃ p ∈ f.tools,
                ((isWildcard p = true ∧ fnmatch r.tool.name p = true)
                  ∨ (isWildcard p = false ∧ r.tool.name = p))))
      ∧ (config.incl.is_empty = true → config.excl.is_empty = true →
          filterSteps config tools = tools) := by
  refine ⟨?_, ?_, ?_, ?_⟩
  · by_cases h : tools.isEmpty
    · rw [List.isEmpty_iff] at h
      subst h
      simp [filterTools, filterSteps]
    · simp [filterTools, h]
  · intro r
    unfold filterSteps
    by_cases hi : config.incl.is_empty = true <;>
      by_cases he : config.excl.is_empty = true <;>
        simp [hi, he, List.mem_filter] <;> tauto
  · intro r f
    simp only [matchesFilter, Bool.or_eq_true, List.any_eq_true, patternCase_iff]
    rw [List.elem_iff]
  · intro h1 h2
    unfold filterSteps
    simp [h1, h2]

/-- Witness for C3: the empty config leaves the sample tool list unchanged. -/
theorem c3_filter_two_steps_witness :
    filterSteps ⟨⟨[], []⟩, ⟨[], []⟩⟩ [calcRT, shellRT] = [calcRT, shellRT] :=
  (c3_filter_two_steps ⟨⟨[], []⟩, ⟨[], []⟩⟩ [calcRT, shellRT]).2.2.2 rfl rfl

/-- C10: the filtered list is an order-preserving subsequence of the input:
both for the two filtering steps themselves and for every successful result
of filter_tools, so filtering never reorders, duplicates or invents
registrations. -/
theorem c10_filter_sublist (config : ToolsConfig) (tools : List RegisteredTool) :
    (filterSteps config tools).Sublist tools
      ∧ (∀ (validate : Bool) (res : List RegisteredTool),
          filterTools config tools validate = Except.ok res → res.Sublist tools) := by
  have hsub : (filterSteps config tools).Sublist tools := by
    unfold filterSteps
    by_cases hi : config.incl.is_empty = true <;>
      by_cases he : config.excl.is_empty = true <;>
        simp [hi, he] <;>
          first
            | exact List.Sublist.refl _
            | exact List.filter_sublist _
            | exact (List.filter_sublist _).trans (List.filter_sublist _)
  refine ⟨hsub, ?_⟩
  intro validate res h
  by_cases ht : tools.isEmpty = true
  · simp [filterTools, ht] at h
    subst h
    exact List.nil_sublist _
  · by_cases hv : validate = true
    · by_cases hval : (validateConfig config (tools.map (fun r => r.category))
        (tools.map (fun r => r.tool.name))).valid = true
      · simp [filterTools, ht, hv, hval] at h
        subst h
        exact hsub
      · simp [filterTools, ht, hv, hval] at h
    · rw [Bool.not_eq_true] at hv
      simp [filterTools, ht, hv] at h
      subst h
      exact hsub

/-- Witness for C10 at the shell-excluding config and sample tools. -/
theorem c10_filter_sublist_witness :
    (filterSteps c5Config [calcRT, shellRT]).Sublist [calcRT, shellRT] :=
  (c10_filter_sublist c5Config [calcRT, shellRT]).2 false
    (filterSteps c5Config [calcRT, shellRT]) rfl

/-- The category errors of one section are empty iff every exact category
name in it is available. -/
theorem sectionCatErrors_eq_nil_iff (s : String) (f : FilterConfig)
    (ac : List String) :
    sectionCatErrors s f ac = [] ↔ ∀ c ∈ f.categories, c ∈ ac := by
  simp only [sectionCatErrors, List.filterMap_eq_nil_iff]
  constructor
  · intro h c hc
    by_cases hb : c ∈ ac
    · exact hb
    · have := h c hc
      simp [hb] at this
  · intro h c hc
    simp [h c hc]

/-- The tool errors of one section are empty iff every non-wildcard tool
name in it is available. -/
theorem sectionToolErrors_eq_nil_iff (s : String) (f : FilterConfig)
    (av : List String) :
    sectionToolErrors s f av = [] ↔
      ∀ p ∈ f.tools, isWildcard p = false → p ∈ av := by
  simp only [sectionToolErrors, List.filterMap_eq_nil_iff]
  constructor
  · intro h p hp hw
    have := h p hp
    by_cases hb : p ∈ av
    · exact hb
    · simp [hw, hb] at this
  · intro h p hp
    by_cases hw : isWildcard p = true
    · simp [hw]
    · rw [Bool.not_eq_true] at hw
      simp [hw, h p hp hw]

/-- A missing exact category contributes its message to the section
errors. -/
theorem mem_sectionCatErrors (s : String) (f : FilterConfig) (ac : List String)
    (c : String) (hc : c ∈ f.categories) (hm : c ∉ ac) :
    (s ++ ".categories: Unknown category " ++ c) ∈ sectionCatErrors s f ac := by
  simp only [sectionCatErrors, List.mem_filterMap]
  exact ⟨c, hc, by simp [hm]⟩

/-- A missing non-wildcard tool name contributes its message to the section
errors. -/
theorem mem_sectionToolErrors (s : String) (f : FilterConfig) (av : List String)
    (p : String) (hp : p ∈ f.tools) (hw : isWildcard p = false)
    (hm : p ∉ av) :
    (s ++ ".tools: Unknown tool " ++ p) ∈ sectionToolErrors s f av := by
  simp only [sectionToolErrors, List.mem_filterMap]
  exact ⟨p, hp, by simp [hw, hm]⟩

/-- A wildcard pattern matching nothing contributes its message to the
section warnings. -/
theorem mem_sectionToolWarnings (s : String) (f : FilterConfig) (av : List String)
    (p : String) (hp : p ∈ f.tools) (hw : isWildcard p = true)
    (hm : av.any (fun t => fnmatch t p) = false) :
    (s ++ ".tools: Pattern " ++ p ++ " matches no tools") ∈ sectionToolWarnings s f av := by
  simp only [sectionToolWarnings, List.mem_filterMap]
  exact ⟨p, hp, by simp [hw, hm]⟩

/-- validate_config is valid iff every exact category and every non-wildcard
tool name of both sections is available. -/
theorem validateConfig_valid_iff (config : ToolsConfig) (ac av : List String) :
    (validateConfig config ac av).valid = true ↔
      ((∀ c ∈ config.incl.categories, c ∈ ac)
        ∧ (∀ c ∈ config.excl.categories, c ∈ ac)
        ∧ (∀ p ∈ config.incl.tools, isWildcard p = false → p ∈ av)
        ∧ (∀ p ∈ config.excl.tools, isWildcard p = false → p ∈ av)) := by
  simp only [validateConfig, List.isEmpty_iff, List.append_eq_nil]
  rw [sectionCatErrors_eq_nil_iff, sectionCatErrors_eq_nil_iff,
    sectionToolErrors_eq_nil_iff, sectionToolErrors_eq_nil_iff]
  tauto


/-- C4 counterexample: the claim says that whenever validation (against the
currently discovered categories and names) finds an error, filtering with
validate on raises. For the empty tool list the code of filter_tools
returns the empty list before running any validation: with a config whose
include section names the unknown category ghost, validation against the
empty availability reports an error and is invalid, yet filter_tools
succeeds. -/
theorem c4_counterexample_empty_tools_skips_validation :
    (validateConfig ghostConfig [] []).valid = false
      ∧ (validateConfig ghostConfig [] []).errors ≠ []
      ∧ filterTools ghostConfig [] true = Except.ok [] := by
  exact ⟨by decide, by decide, rfl⟩

/-- C4 amended: validation reports an error for each exact category or
non-wildcard tool name absent from the available sets (all collected, one
message per missing item, so not fail-fast), a wildcard pattern matching
zero tools only ever yields a warning (validity depends on nothing else);
and for a NONEMPTY tool list, filter_tools with validate on raises whenever
that validation is invalid, and can only return a filtered result when the
validation passed; an EMPTY tool list short-circuits to the empty result
without validating. -/
theorem c4_validation_collects_and_raises (config : ToolsConfig)
    (ac av : List String) (tools : List RegisteredTool) :
    ((validateConfig config ac av).valid = true ↔
        ((∀ c ∈ config.incl.categories, c ∈ ac)
          ∧ (∀ c ∈ config.excl.categories, c ∈ ac)
          ∧ (∀ p ∈ config.incl.tools, isWildcard p = false → p ∈ av)
          ∧ (∀ p ∈ config.excl.tools, isWildcard p = false → p ∈ av)))
      ∧ (∀ c ∈ config.incl.categories, c ∉ ac →
          ("include.categories: Unknown category " ++ c)
            ∈ (validateConfig config ac av).errors)
      ∧ (∀ c ∈ config.excl.categories, c ∉ ac →
          ("exclude.categories: Unknown category " ++ c)
            ∈ (validateConfig config ac av).errors)
      ∧ (∀ p ∈ config.incl.tools, isWildcard p = false → p ∉ av →
          ("include.tools: Unknown tool " ++ p) ∈ (validateConfig config ac av).errors)
      ∧ (∀ p ∈ config.excl.tools, isWildcard p = false → p ∉ av →
          ("exclude.tools: Unknown tool " ++ p) ∈ (validateConfig config ac av).errors)
      ∧ (∀ p ∈ config.incl.tools, isWildcard p = true →
          av.any (fun t => fnmatch t p) = false →
          ("include.tools: Pattern " ++ p ++ " matches no tools")
            ∈ (validateConfig config ac av).warnings)
      ∧ (∀ p ∈ config.excl.tools, isWildcard p = true →
          av.any (fun t => fnmatch t p) = false →
          ("exclude.tools: Pattern " ++ p ++ " matches no tools")
            ∈ (validateConfig config ac av).warnings)
      ∧ (tools ≠ [] →
          (validateConfig config (tools.map (fun r => r.category))
              (tools.map (fun r => r.tool.name))).valid = false →
          ∃ e, filterTools config tools true = Except.error e)
      ∧ (∀ res, filterTools config tools true = Except.ok res →
          (tools = [] ∧ res = [])
            ∨ ((validateConfig config (tools.map (fun r => r.category))
                  (tools.map (fun r => r.tool.name))).valid = true
                ∧ res = filterSteps config tools)) := by
  refine ⟨validateConfig_valid_iff config ac av, ?_, ?_, ?_, ?_, ?_, ?_, ?_, ?_⟩
  · intro c hc hm
    simp only [validateConfig, List.mem_append]
    exact Or.inl (Or.inl (Or.inl (mem_sectionCatErrors _ _ _ _ hc hm)))
  · intro c hc hm
    simp only [validateConfig, List.mem_append]
    exact Or.inl (Or.inl (Or.inr (mem_sectionCatErrors _ _ _ _ hc hm)))
  · intro p hp hw hm
    simp only [validateConfig, List.mem_append]
    exact Or.inl (Or.inr (mem_sectionToolErrors _ _ _ _ hp hw hm))
  · intro p hp hw hm
    simp only [validateConfig, List.mem_append]
    exact Or.inr (mem_sectionToolErrors _ _ _ _ hp hw hm)
  · intro p hp hw hm
    simp only [validateConfig, List.mem_append]
    exact Or.inl (mem_sectionToolWarnings _ _ _ _ hp hw hm)
  · intro p hp hw hm
    simp only [validateConfig, List.mem_append]
    exact Or.inr (mem_sectionToolWarnings _ _ _ _ hp hw hm)
  · intro ht hval
    have hempty : tools.isEmpty = false := by
      rw [Bool.eq_false_iff]
      intro hcon
      exact ht (List.isEmpty_iff.mp hcon)
    refine ⟨"Config validation failed: " ++ String.intercalate "; "
      (validateConfig config (tools.map (fun r => r.category))
        (tools.map (fun r => r.tool.name))).errors, ?_⟩
    simp [filterTools, hempty, hval]
  · intro res h
    by_cases ht : tools.isEmpty = true
    · left
      have := List.isEmpty_iff.mp ht
      subst this
      simp [filterTools] at h
      first
        | exact ⟨rfl, h⟩
        | exact ⟨rfl, h.symm⟩
    · right
      by_cases hval : (validateConfig config (tools.map (fun r => r.category))
          (tools.map (fun r => r.tool.name))).valid = true
      · simp [filterTools, ht, hval] at h
        first
          | exact ⟨hval, h.symm⟩
          | exact ⟨hval, h⟩
      · rw [Bool.not_eq_true] at hval
        simp [filterTools, ht, hval] at h

/-- Witness for C4: ghostConfig is invalid against the sample tool and
filtering raises. -/
theorem c4_validation_collects_and_raises_witness :
    ∃ e, filterTools ghostConfig [calcRT] true = Except.error e :=
  (c4_validation_collects_and_raises ghostConfig [] [] [calcRT]).2.2.2.2.2.2.2.1
    (by decide) (by decide)

/-- C8: schema inference includes exactly the annotated parameters not
annotated as the bare None type, assigning the type-map image of the
resolved annotation (unrecognized annotations default to string, a
type-or-null union resolves to its non-null member); a parameter is in
required iff it participates and has no default value (any default,
a None default included, makes it optional); and the concrete round trip
of a required string plus an integer defaulting to 10 yields exactly the
first as required with types string and integer. -/
theorem c8_schema_inference (params : List Param) :
    (∀ nm ty, (nm, ty) ∈ (getSchemaFromFunc params).properties ↔
        ∃ p ∈ params, p.name = nm ∧ ∃ a, includedAnn p = some a ∧ jsonTypeOf a = ty)
      ∧ (∀ nm, nm ∈ (getSchemaFromFunc params).required ↔
          ∃ p ∈ params, p.name = nm ∧ (includedAnn p).isSome = true ∧ p.dflt = none)
      ∧ (∀ p : Param, p.ann = none → includedAnn p = none)
      ∧ (jsonTypeOf (.simple .pyStr) = "string"
          ∧ jsonTypeOf (.simple .pyInt) = "integer"
          ∧ jsonTypeOf (.simple .pyFloat) = "number"
          ∧ jsonTypeOf (.simple .pyBool) = "boolean"
          ∧ jsonTypeOf (.simple .pyList) = "array"
          ∧ jsonTypeOf (.simple .pyDict) = "object"
          ∧ ∀ s, jsonTypeOf (.simple (.custom s)) = "string")
      ∧ (∀ t : PyType, t ≠ PyType.pyNone →
          jsonTypeOf (.union [t, .pyNone]) = jsonTypeOf (.simple t)
            ∧ jsonTypeOf (.union [.pyNone, t]) = jsonTypeOf (.simple t))
      ∧ (getSchemaFromFunc
            [⟨"text", some (.simple .pyStr), none⟩,
              ⟨"count", some (.simple .pyInt), some (.num 10)⟩]).required = ["text"]
      ∧ (getSchemaFromFunc
            [⟨"text", some (.simple .pyStr), none⟩,
              ⟨"count", some (.simple .pyInt), some (.num 10)⟩]).properties
          = [("text", "string"), ("count", "integer")] := by
  refine ⟨?_, ?_, ?_, ⟨rfl, rfl, rfl, rfl, rfl, rfl, fun s => rfl⟩, ?_, rfl, rfl⟩
  · intro nm ty
    simp only [getSchemaFromFunc, List.mem_filterMap, Option.map_eq_some']
    constructor
    · rintro ⟨p, hp, a, ha, heq⟩
      cases heq
      exact ⟨p, hp, rfl, a, ha, rfl⟩
    · rintro ⟨p, hp, hname, a, ha, hty⟩
      subst hname
      subst hty
      exact ⟨p, hp, a, ha, rfl⟩
  · intro nm
    simp only [getSchemaFromFunc, List.mem_map, List.mem_filter,
      Bool.and_eq_true, Option.isNone_iff_eq_none]
    constructor
    · rintro ⟨p, ⟨hp, hsome, hdflt⟩, hname⟩
      exact ⟨p, hp, hname, hsome, hdflt⟩
    · rintro ⟨p, hp, hname, hsome, hdflt⟩
      exact ⟨p, ⟨hp, hsome, hdflt⟩, hname⟩
  · intro p h
    simp [includedAnn, h]
  · intro t ht
    have hbeq : (t == PyType.pyNone) = false := by simp [ht]
    constructor
    · simp [jsonTypeOf, resolveAnn, hbeq]
    · simp [jsonTypeOf, resolveAnn, hbeq]

/-- Witness for C8 at the concrete parameter list with a nullable custom
annotation. -/
theorem c8_schema_inference_witness :
    "text" ∈ (getSchemaFromFunc
        [⟨"text", some (.simple .pyStr), none⟩,
          ⟨"count", some (.simple .pyInt), some (.num 10)⟩]).required
      ∧ jsonTypeOf (.union [.custom "UUID", .pyNone]) = jsonTypeOf (.simple (.custom "UUID")) :=
  ⟨((c8_schema_inference
        [⟨"text", some (.simple .pyStr), none⟩,
          ⟨"count", some (.simple .pyInt), some (.num 10)⟩]).2.1 "text").mpr
      ⟨⟨"text", some (.simple .pyStr), none⟩, List.mem_cons_self _ _, rfl, rfl, rfl⟩,
    ((c8_schema_inference []).2.2.2.2.1 (.custom "UUID") (by simp)).1⟩

/-- The exact lookup of get_tool misses iff no registration carries the
requested category and name. -/
theorem lookupTool_eq_none_iff (registry : List ToolRegistration)
    (category nm : String) :
    lookupTool registry category nm = none ↔
      ∀ r ∈ registry, ¬(r.category = category ∧ r.name = nm) := by
  simp [lookupTool, List.getLast?_eq_none_iff, List.filter_eq_nil_iff]

/-- C9: the tool-info endpoint resolves in two steps, exact (category, name)
lookup then a retry with the category prefixed to the name; it returns 404
iff neither lookup resolves (the exact lookup missing exactly when no
registration carries that category and name), and on success returns the
payload of the resolved registration: its name, category, docstring
description, derived input schema and endpoint path. -/
theorem c9_tool_info_two_step (registry : List ToolRegistration)
    (category toolName : String) :
    ((∃ e, getTool registry category toolName = Except.error e) ↔
        (lookupTool registry category toolName = none
          ∧ lookupTool registry category (category ++ "_" ++ toolName) = none))
      ∧ (lookupTool registry category toolName = none ↔
          ∀ r ∈ registry, ¬(r.category = category ∧ r.name = toolName))
      ∧ (∀ reg, lookupTool registry category toolName = some reg →
          getTool registry category toolName = Except.ok (toolInfoOf reg))
      ∧ (lookupTool registry category toolName = none →
          ∀ reg, lookupTool registry category (category ++ "_" ++ toolName) = some reg →
            getTool registry category toolName = Except.ok (toolInfoOf reg))
      ∧ (∀ reg : ToolRegistration,
          (toolInfoOf reg).name = reg.name
            ∧ (toolInfoOf reg).category = reg.category
            ∧ (toolInfoOf reg).description = reg.func.doc
            ∧ (toolInfoOf reg).endpoint = "/tools/" ++ reg.name
            ∧ (toolInfoOf reg).inputSchema = getSchemaFromFunc reg.func.params) := by
  refine ⟨?_, lookupTool_eq_none_iff registry category toolName, ?_, ?_, ?_⟩
  · cases h1 : lookupTool registry category toolName with
    | some r => simp [getTool, h1]
    | none =>
      cases h2 : lookupTool registry category (category ++ "_" ++ toolName) with
      | some r => simp [getTool, h1, h2]
      | none => simp [getTool, h1, h2]
  · intro reg h1
    simp [getTool, h1]
  · intro h1 reg h2
    simp [getTool, h1, h2]
  · intro reg
    exact ⟨rfl, rfl, rfl, rfl, rfl⟩

/-- Witness for C9: the shell sample tool is found through the prefixed
retry after the exact lookup misses. -/
theorem c9_tool_info_two_step_witness :
    getTool [shellReg] "shell" "run" = Except.ok (toolInfoOf shellReg) :=
  (c9_tool_info_two_step [shellReg] "shell" "run").2.2.2.1 rfl shellReg rfl
